import Mathlib

/-!
Shallow embedding of the WhatsUpDoc web-app backend (Python/FastAPI) for
verification of its specification claims.

Sources embedded:
- `src/utils/redis_client.py` (`RedisClient.save_message`,
  `RedisClient.fetch_session_messages`)
- `src/utils/context_builder.py` (`format_conversation_context`)
- `src/utils/custom_types.py` (`MessageSender` and message shapes)
- `src/utils/db_client.py` (`DBClient.save_report`)
- `src/utils/file_handler.py` (`FileHandler` attribute set)
- `src/main.py` (`websocket_endpoint` receive loop and disconnect handler,
  `build_conversation_context`, `upload`)

Modelling conventions: Python `None`-able values become `Option`; a raised
Python exception that escapes a function becomes an explicit error
constructor; the Redis list for one session's key `chat:<session_id>` is a
`List (Option MessageObj)` whose head is the most recently pushed entry —
`some m` stands for a stored string that `json.loads` parses back to the
message object `m` (`json.dumps`/`json.loads` round-trip), `none` for a
stored string that fails JSON parsing.  External collaborator calls
(Vertex predict, speech-to-text transcribe) are modelled by
environment-supplied results, since their values come over the network.
Timestamps (`datetime.utcnow()`) are passed in as an explicit `now` value.
Transcription confidences are Python floats that the backend only relays,
never computes with, so they are carried as `Rat` values.
-/

set_option autoImplicit false

namespace WhatsUpDoc

/-- `MessageSender` enum from `src/utils/custom_types.py`: members
`USER = "user"`, `IA = "ai"`, `UPLOAD = "upload"`.  Note the enum has no
`AUDIO` member. -/
inductive MessageSender where
  | USER
  | IA
  | UPLOAD
  deriving DecidableEq, Repr

/-- `.value` of a `MessageSender` member. -/
def MessageSender.value : MessageSender → String
  | .USER => "user"
  | .IA => "ai"
  | .UPLOAD => "upload"

/-- The message object built by `RedisClient.save_message`
(`redis_client.py:124-129`): role string, content, timestamp, optional
document URL. -/
structure MessageObj where
  role : String
  content : String
  timestamp : String
  s3_doc_url : Option String
  deriving DecidableEq, Repr

/-- State of one session's conversation list in Redis, plus the client's
`connected` flag.  The list head is the most recently `lpush`ed entry;
`some m` is an entry parseable as `m`, `none` an unparseable entry. -/
structure RedisClient where
  connected : Bool
  store : List (Option MessageObj)
  deriving DecidableEq, Repr

/-- `RedisClient._ensure_connection` (`redis_client.py:66-82`): reports
availability; in this model the ping succeeds exactly when the client is
connected. -/
def RedisClient.ensure_connection (c : RedisClient) : Bool :=
  c.connected

/-- The `message` argument of `save_message` (`Union[str, ModelResponse]`):
a plain string, a dict carrying a `"content"` key (`ModelResponse`,
`AudioMessage`, `DocumentMessage` all do), or anything else (which makes
`save_message` raise and catch a `ValueError`). -/
inductive MessagePayload where
  | str (s : String)
  | withContent (content : String)
  | other
  deriving DecidableEq, Repr

/-- Content extraction of `save_message` (`redis_client.py:113-121`):
string payloads pass through, dict payloads yield their `"content"`
value, anything else raises `ValueError` (caught by the handler below). -/
def extractContent : MessagePayload → Option String
  | .str s => some s
  | .withContent c => some c
  | .other => none

/-- `RedisClient.save_message` (`redis_client.py:84-145`).  Returns the
boolean result together with the updated client state.  When the store is
unavailable it logs a warning and returns `False` without touching the
list; an invalid payload raises `ValueError`, caught by the surrounding
`except` which returns `False`; otherwise the message object is
`lpush`ed (prepended) and `result > 0` — the new list length — is `True`. -/
def RedisClient.save_message (c : RedisClient) (sender : MessageSender)
    (message : MessagePayload) (now : String) (s3_doc_url : Option String) :
    Bool × RedisClient :=
  if !c.ensure_connection then
    (false, c)
  else
    match extractContent message with
    | none => (false, c)
    | some content =>
        (true, { c with store := some ⟨sender.value, content, now, s3_doc_url⟩ :: c.store })

/-- `RedisClient.fetch_session_messages` (`redis_client.py:147-186`).
`lrangeFails` models the `except Exception` path around the `lrange`
call (any Redis-level error), which returns `[]`.  Otherwise the raw list
is read, reversed to chronological order, and each entry is JSON-parsed,
skipping entries that fail to parse. -/
def RedisClient.fetch_session_messages (c : RedisClient) (lrangeFails : Bool) :
    List MessageObj :=
  if !c.ensure_connection then
    []
  else if lrangeFails then
    []
  else
    c.store.reverse.filterMap id

/-- The dict `{"conversation": [...]}` produced by
`build_conversation_context` (`main.py:111-136`) and consumed by
`format_conversation_context`. -/
structure ConversationDict where
  conversation : List MessageObj
  deriving DecidableEq, Repr

/-- One part of a model-ready chat message (`context_builder.py:54-75`):
either a `text` part or an `image_url` part. -/
structure ChatPart where
  type : String
  text : Option String
  image_url : Option String
  deriving DecidableEq, Repr

/-- A model-ready chat message built by the loop body of
`format_conversation_context`. -/
structure ChatMessage where
  role : String
  content : List ChatPart
  deriving DecidableEq, Repr

/-- Python equality between a `str` and an enum member
(`message["role"] == MessageSender.UPLOAD`, `context_builder.py:53`): a
string never equals an `Enum` member in Python, so this is always false. -/
def pyStrEqEnum (_r : String) (_s : MessageSender) : Bool :=
  false

/-- Loop body of `format_conversation_context` (`context_builder.py:52-75`):
entries whose role equals the `UPLOAD` enum member would become an
`image_url` structure, all others a text passthrough. -/
def formatEntry (message : MessageObj) : ChatMessage :=
  if pyStrEqEnum message.role MessageSender.UPLOAD then
    ⟨"user", [⟨"image_url", none, some message.content⟩]⟩
  else
    ⟨message.role, [⟨"text", some message.content, none⟩]⟩

/-- `format_conversation_context` (`context_builder.py:45-77`).  The source
immediately rebinds the parameter name `conversation_context` to an empty
list (`context_builder.py:51`) and then iterates over that rebound empty
list, appending one formatted entry per element; the input dict is never
read, so the loop runs zero times. -/
def format_conversation_context (_conversation_context : ConversationDict) :
    List ChatMessage :=
  ([] : List MessageObj).foldl (fun acc message => acc ++ [formatEntry message]) []

/-- `build_conversation_context` (`main.py:111-136`): with no Redis client
it returns `{"conversation": []}`; otherwise it wraps
`fetch_session_messages` (whose own error handling already returns `[]`
on a Redis error, so the surrounding `except` path adds nothing). -/
def build_conversation_context (redis : Option RedisClient) : ConversationDict :=
  match redis with
  | none => ⟨[]⟩
  | some c => ⟨c.fetch_session_messages false⟩

/-- A row of the `reports` table (`db_client.py:64-78`). -/
structure ReportRow where
  id : String
  patient_id : String
  summary : Option String
  health_status : String
  report_date : String
  report_url : Option String
  deriving DecidableEq, Repr

/-- The relational store's state: the `reports` table. -/
structure DBState where
  reports : List ReportRow
  deriving DecidableEq, Repr

/-- `DBClient.save_report` (`db_client.py:255-294`): inserts a row into
`reports`; `id` is the primary key, so inserting a duplicate id raises,
is caught, and yields `False` with the table unchanged. -/
def DBState.save_report (db : DBState) (patient_id report_id health_status
    report_date : String) (report_url summary : Option String) :
    Bool × DBState :=
  if db.reports.any (fun r => r.id == report_id) then
    (false, db)
  else
    (true, ⟨⟨report_id, patient_id, summary, health_status, report_date, report_url⟩ :: db.reports⟩)

/-- The attribute names defined on `FileHandler` instances
(`src/utils/file_handler.py`): note there is an `upload_to_s3` method but
no `upload_to_gcp_storage`. -/
def fileHandlerAttrs : List String :=
  ["s3_client", "bucket_name", "get_file_info", "generate_file_id",
   "upload_to_s3", "_create_thumbnail", "_upload_thumbnail",
   "get_signed_upload_url"]

/-- Result shape the `upload` endpoint expects from
`file_handler.upload_to_gcp_storage` (`main.py:381-392`): a blob path and
a URL. -/
structure GcpUploadResult where
  blob_path : String
  url : String
  deriving DecidableEq, Repr

/-- Python attribute lookup of `upload_to_gcp_storage` on the
`FileHandler` instance: `FileHandler` (`file_handler.py:14-175`) defines
no such method, so the lookup fails (`AttributeError`) — modelled as
`none`. -/
def fileHandler_upload_to_gcp_storage :
    Option (String → String → String → GcpUploadResult) :=
  none

/-- `UploadRequest` (`custom_types.py:53-57`). -/
structure UploadRequest where
  session_id : String
  user_id : String
  filename : String
  content_base64 : String
  deriving DecidableEq, Repr

/-- `UploadResponse` (`custom_types.py:60-63`). -/
structure UploadResponse where
  status : String
  s3_url : String
  message : String
  deriving DecidableEq, Repr

/-- An HTTP error response raised as `HTTPException`. -/
structure HttpError where
  status_code : Nat
  detail : String
  deriving DecidableEq, Repr

/-- The `/upload` endpoint handler (`main.py:368-421`).  `decodeOk` says
whether `base64.b64decode(content_base64)` succeeds.  On decode failure
the inner `raise HTTPException(400, ...)` is itself caught by the outer
`except Exception` (there is no `except HTTPException` re-raise), so the
client still sees a 500.  Otherwise the handler looks up
`upload_to_gcp_storage` on the file handler; the lookup raises
`AttributeError`, caught by `except Exception`, yielding HTTP 500
`"Internal server error during upload"` before any Redis write.  The
`some` branch is the rest of the handler (`main.py:388-412`) as written:
persist a `DocumentMessage` whose content is the blob path under sender
`UPLOAD`, then answer success. -/
def upload (req : UploadRequest) (decodeOk : Bool)
    (redis : Option RedisClient) (now : String) :
    Except HttpError UploadResponse × Option RedisClient :=
  if !decodeOk then
    (.error ⟨500, "Internal server error during upload"⟩, redis)
  else
    match fileHandler_upload_to_gcp_storage with
    | none => (.error ⟨500, "Internal server error during upload"⟩, redis)
    | some gcpUpload =>
        let res := gcpUpload req.filename req.session_id req.user_id
        let redis2 :=
          match redis with
          | some c => some (c.save_message .UPLOAD (.withContent res.blob_path) now none).2
          | none => none
        (.ok ⟨"success", res.url, "Document uploaded successfully"⟩, redis2)

/-- Inbound websocket frame (`WebSocketData`, `custom_types.py:6-11`). -/
structure WebSocketData where
  role : String
  content : Option String
  audio : Option String
  audio_format : Option String
  language_code : Option String
  deriving DecidableEq, Repr

/-- Python `str.strip()`: drop whitespace from both ends (whitespace
modelled by `Char.isWhitespace`). -/
def pyStrip (s : String) : String :=
  ⟨((s.data.dropWhile Char.isWhitespace).reverse.dropWhile Char.isWhitespace).reverse⟩

/-- Truthiness of `x is not None and x.strip()` (`main.py:156-159`):
present and non-blank after stripping surrounding whitespace. -/
def nonBlank : Option String → Bool
  | none => false
  | some s => !(pyStrip s == "")

/-- Outbound frame (`main.py` `send_json` payloads): `type`, `content` and
the flattened `meta` dict — `source`, `timestamp` always, plus the fields
only some frame kinds carry (`success` on AI frames, `confidence`,
`audio_format`, `language_code` on transcription frames). -/
structure OutFrame where
  type : String
  content : String
  source : String
  timestamp : String
  success : Option Bool
  confidence : Option Rat
  audio_format : Option String
  language_code : Option String
  deriving DecidableEq, Repr

/-- An error frame (`main.py:173-183`, `197-207`, `213-223`). -/
def errFrame (content source now : String) : OutFrame :=
  ⟨"error", content, source, now, none, none, none, none⟩

/-- One alternative of a transcription result
(`AudioTranscriptionResult`, `custom_types.py:73-76`). -/
structure TranscriptionAlt where
  transcript : String
  confidence : Rat
  deriving DecidableEq, Repr

/-- `AudioTranscriptionResponse` (`custom_types.py:79-84`) as returned by
`stt_client.transcribe_base64_audio`. -/
structure TranscriptionResponse where
  success : Bool
  transcriptions : List TranscriptionAlt
  error : Option String
  deriving DecidableEq, Repr

/-- The dict `VertexClient.predict` returns on the paths `main.py` reads
from it: the `prediction` payload (its text, for the text predictions the
claims concern), `model_id` and `success`. -/
structure AiResult where
  prediction : String
  model_id : String
  success : Bool
  deriving DecidableEq, Repr

/-- Python exception kinds the receive loop can raise besides a
disconnect. -/
inductive PyError where
  | valueError (msg : String)
  | attributeError (attr : String)
  deriving DecidableEq, Repr

/-- Whether one loop iteration ended normally (the loop proceeds to the
next `receive_json`) or by an uncaught exception: `websocket_endpoint`
catches only `WebSocketDisconnect` (`main.py:308`), so any other raised
exception leaves the handler and the connection is torn down without an
error frame. -/
inductive StepResult where
  | ok
  | raised (e : PyError)
  deriving DecidableEq, Repr

/-- Net effect of one iteration of the receive loop: the frames sent to
the client (in order), the Redis state afterwards, and how the iteration
ended. -/
structure StepOutcome where
  sent : List OutFrame
  redis : Option RedisClient
  result : StepResult
  deriving DecidableEq, Repr

/-- The session stays Active after an iteration exactly when no exception
escaped the loop body. -/
def StepOutcome.sessionActive (o : StepOutcome) : Bool :=
  match o.result with
  | .ok => true
  | .raised _ => false

/-- The environment of one loop iteration: the global collaborator
singletons of `main.py` (`redis_client`, `stt_client`, `ai_client`,
each possibly `None`), the results the external transcription and
prediction services would return for this frame (they are network calls,
so their values are environment-supplied), and the current timestamp. -/
structure SessionEnv where
  redis : Option RedisClient
  sttAvailable : Bool
  sttResult : TranscriptionResponse
  aiAvailable : Bool
  aiResult : Option AiResult
  now : String
  deriving DecidableEq, Repr

/-- The "Send message to AI if available, else mock" section
(`main.py:268-296`): with an AI client, the conversation context is read
and formatted (its value feeds `predict`, modelled by `env.aiResult`) and
the response frame carries `ai_result.get("prediction")` as content —
but the `meta` dict evaluates `ai_result.get("model_id", "unknown")`
unconditionally, so a `None` result raises `AttributeError`
(`'NoneType'` has no attribute `get`); without an AI client a mock echo
frame is built. -/
def aiResponseFrame (env : SessionEnv) (redis1 : Option RedisClient)
    (userMessage : String) : Except PyError OutFrame :=
  if env.aiAvailable then
    let _ctx := format_conversation_context (build_conversation_context redis1)
    match env.aiResult with
    | some r =>
        .ok ⟨"text", r.prediction, r.model_id, env.now, some r.success, none, none, none⟩
    | none => .error (.attributeError "get")
  else
    .ok ⟨"text", "Echo: " ++ userMessage, "mock_ai", env.now, none, none, none, none⟩

/-- The tail of one loop iteration after classification
(`main.py:268-306`): build the AI (or mock) response, persist it under
sender `IA` when Redis is present (`main.py:298-302`), and send it after
any frames already sent this iteration. -/
def respondWithAi (env : SessionEnv) (redis1 : Option RedisClient)
    (userMessage : String) (alreadySent : List OutFrame) : StepOutcome :=
  match aiResponseFrame env redis1 userMessage with
  | .error e => ⟨alreadySent, redis1, .raised e⟩
  | .ok aiResp =>
      let redis2 :=
        match redis1 with
        | some c => some (c.save_message .IA (.withContent aiResp.content) env.now none).2
        | none => none
      ⟨alreadySent ++ [aiResp], redis2, .ok⟩

/-- One iteration of the `websocket_endpoint` receive loop
(`main.py:149-306`), from a received frame to the frames sent back, the
updated store and the way the iteration ended.

- text frame (content non-blank, audio blank): persist the user message,
  then respond (`main.py:162-168`);
- audio frame: with no STT client, send a service-unavailable error frame
  and `continue`; on transcription failure or an empty transcription
  list, send the corresponding error frame and `continue`; on success
  take the first alternative, and — when Redis is present — evaluate
  `MessageSender.AUDIO` (`main.py:241`), an attribute the enum does not
  define, so `AttributeError` is raised before anything is saved or
  sent; without Redis, send the transcription frame and respond
  (`main.py:170-257`);
- both present: `raise ValueError(...)` naming both fields
  (`main.py:259-262`), uncaught;
- neither present: `raise ValueError(...)` naming the missing fields
  (`main.py:263-266`), uncaught. -/
def websocketStep (env : SessionEnv) (data : WebSocketData) : StepOutcome :=
  let hasContent := nonBlank data.content
  let hasAudio := nonBlank data.audio
  if hasContent && !hasAudio then
    let userMessage := data.content.getD ""
    let redis1 :=
      match env.redis with
      | some c => some (c.save_message .USER (.str userMessage) env.now none).2
      | none => none
    respondWithAi env redis1 userMessage []
  else if hasAudio && !hasContent then
    if !env.sttAvailable then
      ⟨[errFrame "Speech-to-Text service not available" "server" env.now],
        env.redis, .ok⟩
    else
      let tr := env.sttResult
      if !tr.success then
        ⟨[errFrame ("Transcription failed: " ++ tr.error.getD "Unknown error") "stt" env.now],
          env.redis, .ok⟩
      else
        match tr.transcriptions with
        | [] =>
            ⟨[errFrame "No transcription results" "stt" env.now], env.redis, .ok⟩
        | best :: _ =>
            let userMessage := best.transcript
            match env.redis with
            | some _ => ⟨[], env.redis, .raised (.attributeError "AUDIO")⟩
            | none =>
                let transFrame : OutFrame :=
                  ⟨"transcription", userMessage, "stt", env.now, none,
                    some best.confidence, some (data.audio_format.getD "webm"),
                    some (data.language_code.getD "en-US")⟩
                respondWithAi env none userMessage [transFrame]
  else if hasContent && hasAudio then
    ⟨[], env.redis,
      .raised (.valueError "Invalid message format: cannot have both 'content' and 'audio' in the same message")⟩
  else
    ⟨[], env.redis,
      .raised (.valueError "Invalid message format: must have either 'content' (text) or 'audio' (base64 encoded)")⟩

/-- The `except WebSocketDisconnect` handler of `websocket_endpoint`
(`main.py:308-326`): it rebuilds the conversation context and prints the
message count; every report-workflow step (model report call, Markdown to
PDF, blob upload, `db_client.save_report`) is commented out in the
source, so the report store is returned untouched.  The second component
is the printed message count. -/
def websocketDisconnectHandler (redis : Option RedisClient) (db : DBState) :
    DBState × Nat :=
  (db, (build_conversation_context redis).conversation.length)

/-- One call to `save_message`: its sender, payload, timestamp and optional
document URL. -/
structure SaveReq where
  sender : MessageSender
  payload : MessagePayload
  ts : String
  s3 : Option String
  deriving DecidableEq, Repr

/-- Run a sequence of `save_message` calls left to right on a client. -/
def saveAll (c : RedisClient) (reqs : List SaveReq) : RedisClient :=
  reqs.foldl (fun c r => (c.save_message r.sender r.payload r.ts r.s3).2) c

/-- The stored entry a `save_message` call produces (valid payloads only;
an invalid payload stores nothing). -/
def SaveReq.toObj (r : SaveReq) : Option MessageObj :=
  (extractContent r.payload).map (fun content => ⟨r.sender.value, content, r.ts, r.s3⟩)

/-- The message object a valid `save_message` call stores. -/
def SaveReq.storedObj (r : SaveReq) : MessageObj :=
  ⟨r.sender.value, (extractContent r.payload).getD "", r.ts, r.s3⟩

theorem save_message_connected (c : RedisClient) (r : SaveReq)
    (h : c.connected = true) :
    (c.save_message r.sender r.payload r.ts r.s3).2 =
      ⟨true, ((r.toObj.map some).toList).reverse ++ c.store⟩ := by
  cases c with
  | mk connected store =>
      subst h
      simp only [RedisClient.save_message, RedisClient.ensure_connection,
        Bool.not_true, SaveReq.toObj]
      cases hx : extractContent r.payload with
      | none => simp [hx]
      | some content => simp [hx]

theorem saveAll_connected (reqs : List SaveReq) (c : RedisClient)
    (h : c.connected = true) :
    saveAll c reqs =
      ⟨true, ((reqs.filterMap SaveReq.toObj).map some).reverse ++ c.store⟩ := by
  induction reqs generalizing c with
  | nil =>
      cases c with
      | mk connected store => subst h; simp [saveAll]
  | cons r rest ih =>
      have hstep := save_message_connected c r h
      cases hx : extractContent r.payload with
      | none =>
          simp only [saveAll, List.foldl_cons] at *
          rw [hstep]
          rw [ih _ rfl]
          simp [SaveReq.toObj, hx]
      | some content =>
          simp only [saveAll, List.foldl_cons] at *
          rw [hstep]
          rw [ih _ rfl]
          simp [SaveReq.toObj, hx]

theorem filterMap_toObj_of_valid (reqs : List SaveReq)
    (h : ∀ r ∈ reqs, r.payload ≠ MessagePayload.other) :
    reqs.filterMap SaveReq.toObj = reqs.map SaveReq.storedObj := by
  induction reqs with
  | nil => rfl
  | cons r rest ih =>
      have hr : r.payload ≠ MessagePayload.other := h r (List.mem_cons_self r rest)
      have hrest := ih (fun x hx => h x (List.mem_cons_of_mem r hx))
      cases hp : r.payload with
      | str s =>
          simp [List.filterMap_cons, SaveReq.toObj, SaveReq.storedObj,
            extractContent, hp, hrest]
      | withContent content =>
          simp [List.filterMap_cons, SaveReq.toObj, SaveReq.storedObj,
            extractContent, hp, hrest]
      | other => exact absurd hp hr

/-- C5:  For every sequence of messages saved through `save_message`
into a fresh connected session store, `fetch_session_messages` returns
exactly those messages, one per call, in the order they were appended
(oldest first): the `lpush` prepend composed with the reverse-on-read of
the fetch yields append order. -/
theorem c5_save_fetch_ordering (reqs : List SaveReq)
    (hvalid : ∀ r ∈ reqs, r.payload ≠ MessagePayload.other) :
    (saveAll ⟨true, []⟩ reqs).fetch_session_messages false =
      reqs.map SaveReq.storedObj := by
  rw [saveAll_connected reqs ⟨true, []⟩ rfl]
  simp only [RedisClient.fetch_session_messages, RedisClient.ensure_connection,
    Bool.not_true, List.append_nil, List.reverse_reverse]
  simp [List.filterMap_map, Function.comp, filterMap_toObj_of_valid reqs hvalid]

/-- Concrete run for `c5_save_fetch_ordering`: a user message then an AI
message, read back in append order. -/
def c5Reqs : List SaveReq :=
  [⟨.USER, .str "Hello", "t1", none⟩, ⟨.IA, .withContent "Hi there", "t2", none⟩]

theorem c5_save_fetch_ordering_witness :
    (saveAll ⟨true, []⟩ c5Reqs).fetch_session_messages false =
      [⟨"user", "Hello", "t1", none⟩, ⟨"ai", "Hi there", "t2", none⟩] := by
  have h := c5_save_fetch_ordering c5Reqs (by decide)
  exact h.trans (by decide)

/-- C10:  `fetch_session_messages` is total over every stored list
content: on a connected client it returns exactly the parseable entries,
oldest first (unparseable entries are skipped, never aborting the read);
a Redis-level error during the read yields `[]`; a disconnected client
yields `[]` as well. -/
theorem c10_fetch_total (c : RedisClient) (h : c.connected = true) :
    c.fetch_session_messages false = (c.store.filterMap id).reverse
    ∧ c.fetch_session_messages true = []
    ∧ ∀ (s : List (Option MessageObj)) (lf : Bool),
        (RedisClient.mk false s).fetch_session_messages lf = [] := by
  refine ⟨?_, ?_, ?_⟩
  · simp [RedisClient.fetch_session_messages, RedisClient.ensure_connection, h,
      List.filterMap_reverse]
  · simp [RedisClient.fetch_session_messages, RedisClient.ensure_connection, h]
  · intro s lf
    simp [RedisClient.fetch_session_messages, RedisClient.ensure_connection]

/-- Concrete run for `c10_fetch_total`: a store holding two parseable
entries around one garbage entry is read back without the garbage. -/
def c10Client : RedisClient :=
  ⟨true, [some ⟨"ai", "Hi", "t2", none⟩, none, some ⟨"user", "Hello", "t1", none⟩]⟩

theorem c10_fetch_total_witness :
    c10Client.fetch_session_messages false =
        [⟨"user", "Hello", "t1", none⟩, ⟨"ai", "Hi", "t2", none⟩]
    ∧ c10Client.fetch_session_messages true = [] := by
  have h := c10_fetch_total c10Client rfl
  exact ⟨h.1.trans (by decide), h.2.1⟩

/-- The C1 claim instantiated at one termination: after a disconnect ends
a session whose report table starts with no persisted reports, exactly
one Report record exists. -/
def exactlyOneReportAfterDisconnect (redis : Option RedisClient) (db : DBState) : Prop :=
  ((websocketDisconnectHandler redis db).1).reports.length = 1

/-- A session store with one user message, as it stands when the client
disconnects. -/
def c1Redis : RedisClient := ⟨true, [some ⟨"user", "Hello", "t1", none⟩]⟩

/-- C1 counterexample:  A session that terminates by transport
disconnect (one user message in its log, no reports persisted yet) ends
with zero Report records, not one: the report workflow never runs. -/
theorem c1_counterexample :
    ¬ exactlyOneReportAfterDisconnect (some c1Redis) ⟨[]⟩ := by
  unfold exactlyOneReportAfterDisconnect
  decide

/-- C1 amended:  No Report record is ever persisted at session
termination: the disconnect handler leaves the report store untouched
(every report-workflow step is commented out in the source, and no
sentinel-token trigger path exists in the receive loop).  At-most-once
holds vacuously; at-least-once fails. -/
theorem c1_no_report_persisted (redis : Option RedisClient) (db : DBState) :
    (websocketDisconnectHandler redis db).1 = db := rfl

/-- The C2 claim instantiated at one frame: the iteration ends normally
(session stays Active) and an error frame was sent to the client. -/
def validationReportedAndActive (env : SessionEnv) (data : WebSocketData) : Prop :=
  (websocketStep env data).result = .ok
  ∧ (websocketStep env data).sent.any (fun f => f.type == "error") = true

/-- Environment for the C2 counterexample: no collaborators, mock AI. -/
def c2Env : SessionEnv := ⟨none, false, ⟨false, [], none⟩, false, none, "t0"⟩

/-- A frame with both `content` and `audio` non-blank. -/
def c2Data : WebSocketData := ⟨"user", some "Hello", some "QUJD", none, none⟩

/-- C2 counterexample:  On a frame carrying both `content` and
`audio`, no error frame is sent and the session does not stay Active:
the handler raises an uncaught `ValueError` and the iteration ends by
exception. -/
theorem c2_counterexample : ¬ validationReportedAndActive c2Env c2Data := by
  unfold validationReportedAndActive
  decide

/-- C2 amended:  For every inbound frame in which `content` and
`audio` are both present (non-blank) or both absent/blank, the handler
raises a `ValueError` whose message names the conflicting or missing
fields; the exception is not caught by the session loop (only
`WebSocketDisconnect` is), so no error frame is sent, the store is
untouched, and the connection closes instead of staying Active. -/
theorem c2_validation_raises (env : SessionEnv) (data : WebSocketData)
    (h : (nonBlank data.content = true ∧ nonBlank data.audio = true)
      ∨ (nonBlank data.content = false ∧ nonBlank data.audio = false)) :
    websocketStep env data =
      ⟨[], env.redis,
        .raised (.valueError
          (if nonBlank data.content then
            "Invalid message format: cannot have both 'content' and 'audio' in the same message"
          else
            "Invalid message format: must have either 'content' (text) or 'audio' (base64 encoded)"))⟩ := by
  rcases h with ⟨hc, ha⟩ | ⟨hc, ha⟩ <;>
    simp [websocketStep, hc, ha]

theorem c2_validation_raises_witness :
    ((nonBlank c2Data.content = true ∧ nonBlank c2Data.audio = true)
      ∨ (nonBlank c2Data.content = false ∧ nonBlank c2Data.audio = false))
    ∧ websocketStep c2Env c2Data =
      ⟨[], none,
        .raised (.valueError
          "Invalid message format: cannot have both 'content' and 'audio' in the same message")⟩ := by
  refine ⟨Or.inl (by decide), ?_⟩
  have h := c2_validation_raises c2Env c2Data (Or.inl (by decide))
  exact h.trans (by decide)

/-- The C3 claim instantiated at one turn: no frame delivered to the
client contains the marker as a substring. -/
def strippedDelivery (env : SessionEnv) (data : WebSocketData) (marker : String) : Prop :=
  ∀ f ∈ (websocketStep env data).sent, ¬ (marker.data <:+: f.content.data)

/-- Environment for the C3 counterexample: the model's generated text for
this turn contains the end-of-conversation marker. -/
def c3Env : SessionEnv :=
  ⟨none, false, ⟨false, [], none⟩, true,
    some ⟨"Bye [END_OF_CONVERSATION]", "gemma", true⟩, "t0"⟩

/-- A plain text frame for the C3 counterexample. -/
def c3Data : WebSocketData := ⟨"user", some "Goodbye", none, none, none⟩

/-- C3 counterexample:  When the model turn generates
`"Bye [END_OF_CONVERSATION]"`, the frame delivered to the client still
contains the marker substring `"[END_OF_CONVERSATION]"`: nothing strips
it. -/
theorem c3_counterexample :
    ¬ strippedDelivery c3Env c3Data "[END_OF_CONVERSATION]" := by
  intro h
  have hf := h ⟨"text", "Bye [END_OF_CONVERSATION]", "gemma", "t0", some true,
    none, none, none⟩ (by decide)
  exact hf ⟨"Bye ".data, [], by decide⟩

/-- C3 amended:  No sentinel stripping exists: on a text frame the
content delivered to the client is exactly the model's `prediction`
text, so every marker substring occurring in the generated text also
occurs in a delivered frame. -/
theorem c3_no_stripping (env : SessionEnv) (data : WebSocketData)
    (r : AiResult) (marker : String)
    (hc : nonBlank data.content = true) (ha : nonBlank data.audio = false)
    (hai : env.aiAvailable = true) (hr : env.aiResult = some r)
    (hm : marker.data <:+: r.prediction.data) :
    (websocketStep env data).sent.map OutFrame.content = [r.prediction]
    ∧ ∃ f ∈ (websocketStep env data).sent, marker.data <:+: f.content.data := by
  have hstep : websocketStep env data =
      respondWithAi env
        (match env.redis with
          | some c => some (c.save_message .USER (.str (data.content.getD ""))
              env.now none).2
          | none => none)
        (data.content.getD "") [] := by
    simp [websocketStep, hc, ha]
  rw [hstep]
  simp only [respondWithAi, aiResponseFrame, hai, hr, if_pos rfl]
  refine ⟨by simp, ?_⟩
  exact ⟨⟨"text", r.prediction, r.model_id, env.now, some r.success, none, none, none⟩,
    by simp, hm⟩

theorem c3_no_stripping_witness :
    (nonBlank c3Data.content = true ∧ nonBlank c3Data.audio = false
      ∧ c3Env.aiAvailable = true
      ∧ c3Env.aiResult = some ⟨"Bye [END_OF_CONVERSATION]", "gemma", true⟩
      ∧ "[END_OF_CONVERSATION]".data <:+: "Bye [END_OF_CONVERSATION]".data)
    ∧ ((websocketStep c3Env c3Data).sent.map OutFrame.content
        = ["Bye [END_OF_CONVERSATION]"]
      ∧ ∃ f ∈ (websocketStep c3Env c3Data).sent,
          "[END_OF_CONVERSATION]".data <:+: f.content.data) := by
  refine ⟨⟨by decide, by decide, by decide, by decide, ⟨"Bye ".data, [], by decide⟩⟩, ?_⟩
  exact c3_no_stripping c3Env c3Data ⟨"Bye [END_OF_CONVERSATION]", "gemma", true⟩
    "[END_OF_CONVERSATION]" (by decide) (by decide) (by decide) (by decide)
    ⟨"Bye ".data, [], by decide⟩

/-- C4:  `format_conversation_context` is not the claimed pure
one-entry-per-log-entry transform: it returns the empty context for
every input, including non-empty conversation logs, because the source
rebinds its parameter to an empty list before the loop. -/
theorem c4_format_conversation_context_ignores_input :
    ∀ cc : ConversationDict, format_conversation_context cc = [] :=
  fun _ => rfl

/-- The C6 claim instantiated at one frame: the session stays Active
after processing it (the loop continues instead of the connection
closing). -/
def sessionContinues (env : SessionEnv) (data : WebSocketData) : Prop :=
  (websocketStep env data).sessionActive = true

/-- A Redis client object that exists but has lost its connection: the
claim's "present but not connected" mode of store unavailability.  In
Python such an instance is still truthy at `main.py:231` (`RedisClient`
defines no dunder bool). -/
def c6ceClient : RedisClient := ⟨false, []⟩

/-- Environment for the C6 counterexample: store unavailable in the
not-connected mode, transcription up and succeeding, mock AI. -/
def c6ceEnv : SessionEnv :=
  ⟨some c6ceClient, true, ⟨true, [⟨"hello", 1⟩], none⟩, false, none, "t0"⟩

/-- An audio-only frame for the C6 counterexample. -/
def c6ceData : WebSocketData := ⟨"user", none, some "QUJD", none, none⟩

/-- C6 counterexample: with the store unavailable in the
present-but-not-connected mode, the session does not continue to accept
and respond to every message: an audio-only frame whose transcription
succeeds reaches `MessageSender.AUDIO` (`main.py:241`), raising an
uncaught `AttributeError`, so the iteration ends by exception and the
connection closes. -/
theorem c6_counterexample :
    c6ceClient.connected = false ∧ ¬ sessionContinues c6ceEnv c6ceData := by
  refine ⟨rfl, ?_⟩
  unfold sessionContinues
  decide

/-- C6 amended: when the conversation store is unavailable (the Redis
client absent, or present but not connected), `save_message` is a no-op
returning failure and `fetch_session_messages` and the context built
from it are empty; the session keeps accepting and responding to valid
*text* frames — the iteration ends normally (connection stays open)
with exactly one response frame sent, provided the AI leg itself
returns (mock fallback, or a prediction result).  Audio frames are not
covered: with a client object present, even disconnected, a
successfully transcribed audio frame crashes the connection (see the
counterexample). -/
theorem c6_store_unavailable_degrades (c : RedisClient) (sender : MessageSender)
    (payload : MessagePayload) (ts : String) (s3 : Option String) (lf : Bool)
    (env : SessionEnv) (data : WebSocketData)
    (hc : c.connected = false)
    (henv : env.redis = none ∨ env.redis = some c)
    (hcontent : nonBlank data.content = true)
    (haudio : nonBlank data.audio = false)
    (hai : env.aiAvailable = false ∨ ∃ r, env.aiResult = some r) :
    c.save_message sender payload ts s3 = (false, c)
    ∧ c.fetch_session_messages lf = []
    ∧ build_conversation_context env.redis = ⟨[]⟩
    ∧ (websocketStep env data).result = .ok
    ∧ (websocketStep env data).sent.length = 1 := by
  have hsave : c.save_message sender payload ts s3 = (false, c) := by
    simp [RedisClient.save_message, RedisClient.ensure_connection, hc]
  have hfetch : ∀ b : Bool, c.fetch_session_messages b = [] := by
    intro b
    simp [RedisClient.fetch_session_messages, RedisClient.ensure_connection, hc]
  have hctx : build_conversation_context env.redis = ⟨[]⟩ := by
    rcases henv with h | h <;> simp [build_conversation_context, h, hfetch]
  have hstep : websocketStep env data =
      respondWithAi env
        (match env.redis with
          | some c2 => some (c2.save_message .USER (.str (data.content.getD ""))
              env.now none).2
          | none => none)
        (data.content.getD "") [] := by
    simp [websocketStep, hcontent, haudio]
  have hframe : ∃ fr, aiResponseFrame env
      (match env.redis with
        | some c2 => some (c2.save_message .USER (.str (data.content.getD ""))
            env.now none).2
        | none => none)
      (data.content.getD "") = .ok fr := by
    rcases hai with h | ⟨r, h⟩
    · simp [aiResponseFrame, h]
    · by_cases hav : env.aiAvailable = true
      · simp [aiResponseFrame, hav, h]
      · simp [aiResponseFrame, Bool.of_not_eq_true hav]
  rcases hframe with ⟨fr, hfr⟩
  refine ⟨hsave, hfetch lf, hctx, ?_, ?_⟩ <;>
    rw [hstep] <;> simp [respondWithAi, hfr]

/-- Disconnected client for the C6 run. -/
def c6Client : RedisClient := ⟨false, [some ⟨"user", "old", "t0", none⟩]⟩

/-- Environment for the C6 run: the Redis client exists but lost its
connection; no AI client, so the mock echo answers. -/
def c6Env : SessionEnv := ⟨some c6Client, false, ⟨false, [], none⟩, false, none, "t1"⟩

theorem c6_store_unavailable_degrades_witness :
    c6Client.save_message .USER (.str "Hello") "t1" none = (false, c6Client)
    ∧ c6Client.fetch_session_messages false = []
    ∧ build_conversation_context (some c6Client) = ⟨[]⟩
    ∧ (websocketStep c6Env ⟨"user", some "Hello", none, none, none⟩).result = .ok
    ∧ (websocketStep c6Env ⟨"user", some "Hello", none, none, none⟩).sent.length = 1 := by
  have h := c6_store_unavailable_degrades c6Client .USER (.str "Hello") "t1" none
    false c6Env ⟨"user", some "Hello", none, none, none⟩ rfl (Or.inr rfl)
    (by decide) (by decide) (Or.inl rfl)
  exact ⟨h.1, h.2.1, h.2.2.1, h.2.2.2.1, h.2.2.2.2⟩

/-- C7:  An audio-only frame received while the transcription client
is unavailable makes the server send exactly one error frame with type
`"error"` and content `"Speech-to-Text service not available"`, leaves
the store untouched, and the loop continues. -/
theorem c7_stt_unavailable (env : SessionEnv) (data : WebSocketData)
    (hstt : env.sttAvailable = false)
    (haudio : nonBlank data.audio = true)
    (hcontent : nonBlank data.content = false) :
    websocketStep env data =
      ⟨[errFrame "Speech-to-Text service not available" "server" env.now],
        env.redis, .ok⟩ := by
  simp [websocketStep, hstt, haudio, hcontent]

theorem c7_stt_unavailable_witness :
    websocketStep ⟨some ⟨true, []⟩, false, ⟨false, [], none⟩, false, none, "t0"⟩
        ⟨"user", none, some "QUJD", none, none⟩ =
      ⟨[⟨"error", "Speech-to-Text service not available", "server", "t0",
          none, none, none, none⟩],
        some ⟨true, []⟩, .ok⟩ := by
  have h := c7_stt_unavailable
    ⟨some ⟨true, []⟩, false, ⟨false, [], none⟩, false, none, "t0"⟩
    ⟨"user", none, some "QUJD", none, none⟩ rfl (by decide) (by decide)
  exact h.trans (by decide)

/-- Environment for the C8 run: Redis available (empty fresh session
store), transcription succeeds with one alternative, AI available. -/
def c8Env : SessionEnv :=
  ⟨some ⟨true, []⟩, true, ⟨true, [⟨"I have a headache", 1⟩], none⟩, true,
    some ⟨"Sorry to hear that", "gemma", true⟩, "t0"⟩

/-- The C8 frame: audio present, content absent. -/
def c8Data : WebSocketData := ⟨"user", none, some "QUJD", some "webm", some "en-US"⟩

/-- C8:  On an audio-only frame whose transcription succeeds with a
non-empty list, while the store is available, the handler evaluates
`MessageSender.AUDIO` — an attribute the `MessageSender` enum does not
define — so an `AttributeError` is raised before any message is
persisted and before the transcription frame is sent; the exception is
uncaught and the connection closes. -/
theorem c8_audio_persist_raises :
    websocketStep c8Env c8Data =
      ⟨[], some ⟨true, []⟩, .raised (.attributeError "AUDIO")⟩ := by
  decide

/-- C9:  For every `/upload` request whose base64 content decodes
successfully, the storage call fails by `AttributeError` (`FileHandler`
defines `upload_to_s3` but no `upload_to_gcp_storage`), so the endpoint
answers HTTP 500 `"Internal server error during upload"` and the store
receives no document message. -/
theorem c9_upload_always_500 (req : UploadRequest) (redis : Option RedisClient)
    (now : String) :
    upload req true redis now =
      (.error ⟨500, "Internal server error during upload"⟩, redis) := rfl

/-- The missing method really is missing from the `FileHandler` attribute
set. -/
theorem fileHandler_no_gcp_upload :
    "upload_to_gcp_storage" ∉ fileHandlerAttrs ∧
      fileHandler_upload_to_gcp_storage = none := ⟨by decide, rfl⟩

end WhatsUpDoc
